import Mathlib

/-!
Shallow embedding of `ai_prompt.py`, a terminal utility that forwards a text
prompt to one of three LLM providers (openai, openrouter, anthropic) and
prints the response.  JSON values are modelled by the inductive `Json`;
the HTTP layer is modelled by `HttpOutcome` (the transport either raises,
or yields a response with a status code, a raw text body, and an optional
parsed JSON body — `none` meaning `.json()` would raise).  Python functions
become Lean functions over these types; lines written by `print` are
collected in lists; `sys.exit` and uncaught exceptions become explicit
constructors of the result types.
-/

/-- JSON values (floats do not occur in any behaviour under study, so numbers
are modelled by `Int`). -/
inductive Json where
  | null
  | bool (b : Bool)
  | num (n : Int)
  | str (s : String)
  | arr (xs : List Json)
  | obj (kvs : List (String × Json))
deriving Repr

/-- Python `d[k]` on a dict: the value at key `k`; `none` models the raised
`KeyError` (or `TypeError` when the value is not a dict). -/
def Json.getField : Json → String → Option Json
  | .obj kvs, k => (kvs.find? (fun kv => kv.fst == k)).map (fun kv => kv.snd)
  | _, _ => none

/-- Python `l[i]` on a list: the element at index `i`; `none` models the
raised `IndexError` (or `TypeError`/`KeyError` when the value is not a list). -/
def Json.getIdx : Json → Nat → Option Json
  | .arr xs, i => xs.get? i
  | _, _ => none

/-- Python truthiness of a JSON value: `None`, `False`, `0`, `""`, `[]` and
an empty dict are falsy, everything else is truthy. -/
def Json.falsy : Json → Bool
  | .null => true
  | .bool b => !b
  | .num n => n == 0
  | .str s => s == ""
  | .arr xs => xs.isEmpty
  | .obj kvs => kvs.isEmpty

/-- Python `str()` of a JSON value as it is interpolated into f-strings.
Strings render verbatim (the only case exercised by the program on its
documented data); container rendering is abbreviated. -/
def Json.pystr : Json → String
  | .null => "None"
  | .bool true => "True"
  | .bool false => "False"
  | .num n => toString n
  | .str s => s
  | .arr _ => "<list>"
  | .obj _ => "<dict>"

/-- State of a stored file: absent, or present with contents that either
parse to a JSON value or do not parse (`stored none`). -/
inductive FileState where
  | absent
  | stored (content : Option Json)
deriving Repr

/-- Outcome of the single HTTP request a code path performs: the transport
raises, or a response arrives with a status code, a raw `.text` body, and
`.json()` either succeeding (`some`) or raising (`none`). -/
inductive HttpOutcome where
  | raised
  | response (status : Nat) (text : String) (body : Option Json)
deriving Repr

/-- Python `response.raise_for_status()` raises exactly for 4xx and 5xx. -/
def errStatus (st : Nat) : Prop := 400 ≤ st ∧ st < 600

instance (st : Nat) : Decidable (errStatus st) := by
  unfold errStatus; infer_instance

/-- Hard-coded `DEFAULT_CONFIG` dict from `ai_prompt.py`. -/
def DEFAULT_CONFIG : Json := .obj
  [ ("openai", .obj [("api_key", .str ""), ("default_model", .str "gpt-3.5-turbo")])
  , ("openrouter", .obj [("api_key", .str ""), ("default_model", .str "google/gemini-2.0-pro-exp-02-05:free")])
  , ("anthropic", .obj [("api_key", .str ""), ("default_model", .str "claude-3-opus-20240229")])
  , ("default_provider", .str "openrouter") ]

/-- Fixed per-user path of the configuration file. -/
def CONFIG_PATH : String := "~/.ai_prompt_config.json"

/-- Result of `load_config`: on success, the configuration, the lines it
printed, and the new state of the config file; `.error` models the
propagated `json.JSONDecodeError`. -/
def load_config : FileState → Except Unit (Json × List String × FileState)
  | .absent =>
      .ok (DEFAULT_CONFIG,
           ["Created default configuration at " ++ CONFIG_PATH],
           .stored (some DEFAULT_CONFIG))
  | .stored none => .error ()
  | .stored (some j) => .ok (j, [], .stored (some j))

/-- Embedding of `load_keys`: a missing file (`FileNotFoundError`) or an
unparsable one (`json.JSONDecodeError`) yields the default empty mapping;
any parsed JSON value is returned unchanged. -/
def load_keys : FileState → Json
  | .stored (some j) => j
  | _ => .obj [("openai", .str ""), ("openrouter", .str ""), ("anthropic", .str "")]

/-- Result of a provider adapter (`query_openai` and friends): either the
function returns a value (`none` models Python `None`) having printed the
given lines, or an exception escapes it after the given lines were printed. -/
inductive AdapterResult where
  | returns (v : Option Json) (out : List String)
  | raises (out : List String)
deriving Repr

/-- Extraction path of `query_openai`/`query_openrouter`:
`response.json()["choices"][0]["message"]["content"]`; `none` models the
raised lookup exception. -/
def extract_chat (j : Json) : Option Json :=
  (((j.getField "choices").bind (fun c => c.getIdx 0)).bind
      (fun c0 => c0.getField "message")).bind
    (fun msg => msg.getField "content")

/-- Extraction path of `query_anthropic`:
`response.json()["content"][0]["text"]`. -/
def extract_anthropic (j : Json) : Option Json :=
  ((j.getField "content").bind (fun c => c.getIdx 0)).bind
    (fun c0 => c0.getField "text")

/-- The body line of `query_openai`'s handler, guarded by
`if response and hasattr(response, "text")`: a bound `requests` response is
truthy exactly when `response.ok`, i.e. when its status code is below 400,
so the raw body is printed only then (never on the 4xx/5xx path). -/
def openai_response_line (st : Nat) (text : String) : List String :=
  if st < 400 then ["Response: " ++ text] else []

/-- Embedding of `query_openai`.  It initialises `response = None` before the
`try`, so when the POST itself raises, the handler's
`if response and hasattr(response, "text")` guard is skipped and the
function returns `None`.  On other failures the guard tests the bound
response's truthiness (`Response.__bool__` is `self.ok`), so the raw body
line is printed only for a below-400 status (`openai_response_line`); on
success the extracted value is returned. -/
def query_openai (prompt model api_key : String) (outcome : HttpOutcome) :
    AdapterResult :=
  match outcome with
  | .raised => .returns none ["Error querying OpenAI: exception"]
  | .response st text body =>
      if errStatus st then
        .returns none ("Error querying OpenAI: HTTPError" :: openai_response_line st text)
      else
        match body with
        | none =>
            .returns none ("Error querying OpenAI: JSONDecodeError" :: openai_response_line st text)
        | some j =>
            match extract_chat j with
            | some v => .returns (some v) []
            | none =>
                .returns none ("Error querying OpenAI: LookupError" :: openai_response_line st text)

/-- Embedding of `query_openrouter`.  Unlike `query_openai` it does NOT
initialise `response` before the `try`; when the POST itself raises, the
handler evaluates `hasattr(response, "text")` on the unbound local and an
`UnboundLocalError` escapes the adapter (modelled by `.raises`). -/
def query_openrouter (prompt model api_key : String) (outcome : HttpOutcome) :
    AdapterResult :=
  match outcome with
  | .raised => .raises ["Error querying OpenRouter: exception"]
  | .response st text body =>
      if errStatus st then
        .returns none ["Error querying OpenRouter: HTTPError", "Response: " ++ text]
      else
        match body with
        | none => .returns none ["Error querying OpenRouter: JSONDecodeError", "Response: " ++ text]
        | some j =>
            match extract_chat j with
            | some v => .returns (some v) []
            | none => .returns none ["Error querying OpenRouter: LookupError", "Response: " ++ text]

/-- Embedding of `query_anthropic`; same unbound-local behaviour as
`query_openrouter` when the POST raises. -/
def query_anthropic (prompt model api_key : String) (outcome : HttpOutcome) :
    AdapterResult :=
  match outcome with
  | .raised => .raises ["Error querying Anthropic: exception"]
  | .response st text body =>
      if errStatus st then
        .returns none ["Error querying Anthropic: HTTPError", "Response: " ++ text]
      else
        match body with
        | none => .returns none ["Error querying Anthropic: JSONDecodeError", "Response: " ++ text]
        | some j =>
            match extract_anthropic j with
            | some v => .returns (some v) []
            | none => .returns none ["Error querying Anthropic: LookupError", "Response: " ++ text]

/-- Lexicographic comparison of character lists by code point, exactly the
order Python uses to compare strings. -/
def charListLe : List Char → List Char → Bool
  | [], _ => true
  | _ :: _, [] => false
  | a :: as, b :: bs =>
      if a < b then true
      else if b < a then false
      else charListLe as bs

/-- Python string comparison `a <= b` (code-point lexicographic). -/
def pyStrLe (a b : String) : Bool := charListLe a.data b.data

/-- Python string order as a relation, used by the embedding of `sorted`. -/
def PyLe (a b : String) : Prop := pyStrLe a b = true

instance : DecidableRel PyLe := fun a b =>
  inferInstanceAs (Decidable (pyStrLe a b = true))

theorem charListLe_total :
    ∀ a b : List Char, charListLe a b = true ∨ charListLe b a = true
  | [], _ => Or.inl rfl
  | _ :: _, [] => Or.inr rfl
  | a :: as, b :: bs => by
      by_cases hab : a < b
      · exact Or.inl (by simp [charListLe, hab])
      · by_cases hba : b < a
        · exact Or.inr (by simp [charListLe, hba])
        · have hEq : a = b := le_antisymm (not_lt.mp hba) (not_lt.mp hab)
          subst hEq
          rcases charListLe_total as bs with h | h
          · exact Or.inl (by simp [charListLe, h])
          · exact Or.inr (by simp [charListLe, h])

theorem charListLe_trans :
    ∀ a b c : List Char, charListLe a b = true → charListLe b c = true →
      charListLe a c = true
  | [], _, _ => fun _ _ => rfl
  | _ :: _, [], _ => by simp [charListLe]
  | _ :: _, _ :: _, [] => by intro _ h2; simp [charListLe] at h2
  | a :: as, b :: bs, c :: cs => by
      intro h1 h2
      simp only [charListLe] at h1 h2 ⊢
      by_cases hab : a < b
      · by_cases hbc : b < c
        · simp [lt_trans hab hbc]
        · by_cases hcb : c < b
          · simp [hbc, hcb] at h2
          · have : b = c := le_antisymm (not_lt.mp hcb) (not_lt.mp hbc)
            subst this
            simp [hab]
      · by_cases hba : b < a
        · simp [hab, hba] at h1
        · have : a = b := le_antisymm (not_lt.mp hba) (not_lt.mp hab)
          subst this
          simp only [lt_irrefl, if_false, if_neg (lt_irrefl a)] at h1
          by_cases hbc : a < c
          · simp [hbc]
          · by_cases hcb : c < a
            · simp [hbc, hcb] at h2
            · have : a = c := le_antisymm (not_lt.mp hcb) (not_lt.mp hbc)
              subst this
              simp only [lt_irrefl, if_false, if_neg (lt_irrefl a)] at h2 ⊢
              exact charListLe_trans as bs cs h1 h2

instance : IsTotal String PyLe :=
  ⟨fun a b => charListLe_total a.data b.data⟩

instance : IsTrans String PyLe :=
  ⟨fun a b c => charListLe_trans a.data b.data c.data⟩

/-- Checks that `needle` is a prefix of `hay` (plain Bool recursion). -/
def listStartsWith : List Char → List Char → Bool
  | [], _ => true
  | _ :: _, [] => false
  | a :: as, b :: bs => a == b && listStartsWith as bs

/-- Python substring test `needle in hay` on character lists. -/
def containsSub (needle : List Char) : List Char → Bool
  | [] => needle.isEmpty
  | c :: rest => listStartsWith needle (c :: rest) || containsSub needle rest

/-- Python `s.lower()` (per-character lowercasing; exact on the ASCII data
the program handles). -/
def lowerStr (s : String) : String := String.mk (s.data.map Char.toLower)

/-- The filter of the OpenAI model listing: `"gpt" in model["id"].lower()`. -/
def has_gpt (s : String) : Bool := containsSub "gpt".data (lowerStr s).data

/-- Embedding of the list comprehension
`[m["id"] for m in models["data"] if "gpt" in m["id"].lower()]`:
`none` models an exception raised while evaluating some element (missing
`id` key or a non-string `id`). -/
def openai_chat_models : List Json → Option (List String)
  | [] => some []
  | m :: ms =>
      match m.getField "id" with
      | some (.str s) =>
          match openai_chat_models ms with
          | some rest => some (if has_gpt s then s :: rest else rest)
          | none => none
      | _ => none

/-- Embedding of the OpenRouter printing loop: the lines printed so far, and
whether the loop completed (`false` models an exception raised at the first
entry missing `id` or `name`). -/
def openrouter_lines : List Json → List String × Bool
  | [] => ([], true)
  | m :: ms =>
      match m.getField "id", m.getField "name" with
      | some idv, some nmv =>
          let r := openrouter_lines ms
          (("  - " ++ idv.pystr ++ " (" ++ nmv.pystr ++ ")") :: r.fst, r.snd)
      | _, _ => ([], false)

/-- Result of `list_models`: the printed lines and the number of network
calls attempted; `.raised` marks the paths where an exception escapes
(the unbound-local slip in the handler, as in the adapters). -/
inductive ListResult where
  | done (out : List String) (ncalls : Nat)
  | raised (out : List String) (ncalls : Nat)
deriving Repr

/-- Embedding of `list_models`.  The openai branch filters ids containing
"gpt" case-insensitively and prints them sorted; the openrouter branch
prints `id (name)` per entry in catalog order; anthropic prints a fixed
list with no network call.  A `data` value that is not a JSON list is
modelled as the exception path (faithful except for degenerate
empty-container catalogs, which no behaviour under study exercises). -/
def list_models (provider api_key : String) (outcome : HttpOutcome) : ListResult :=
  if provider = "openai" ∨ provider = "openrouter" then
    match outcome with
    | .raised => .raised ["Error listing models: exception"] 1
    | .response st text body =>
        if errStatus st then
          .done ["Error listing models: HTTPError", "Response: " ++ text] 1
        else
          match body with
          | none => .done ["Error listing models: JSONDecodeError", "Response: " ++ text] 1
          | some models =>
              if provider = "openai" then
                match models.getField "data" with
                | some (.arr entries) =>
                    match openai_chat_models entries with
                    | some chat =>
                        .done ("\nAvailable OpenAI models:" ::
                               (List.insertionSort PyLe chat).map (fun m => "  - " ++ m)) 1
                    | none => .done ["Error listing models: LookupError", "Response: " ++ text] 1
                | _ => .done ["Error listing models: TypeError", "Response: " ++ text] 1
              else
                match models.getField "data" with
                | some (.arr entries) =>
                    match openrouter_lines entries with
                    | (lines, true) => .done ("\nAvailable OpenRouter models:" :: lines) 1
                    | (lines, false) =>
                        .done (("\nAvailable OpenRouter models:" :: lines) ++
                               ["Error listing models: LookupError", "Response: " ++ text]) 1
                | _ => .done ["Error listing models: TypeError", "Response: " ++ text] 1
  else if provider = "anthropic" then
    .done ["\nAvailable Anthropic models:",
           "  - claude-3-opus-20240229",
           "  - claude-3-sonnet-20240229",
           "  - claude-3-haiku-20240307"] 0
  else
    .done ["Unknown provider: " ++ provider] 0

/-- Parsed command-line arguments (the post-`argparse` record).  `prompt`,
`file` and `model` are `none` when not supplied; argparse restricts
`provider` to the three known identifiers when supplied. -/
structure Args where
  model : Option String
  prompt : Option String
  provider : Option String
  setup : Bool
  list_models : Bool
  file : Option String

/-- The process environment a single invocation of `main` observes: the two
stored files, the readable files (`fs` maps a path to its contents; a path
outside the list models a read error), standard input, and the outcome the
network would give to the one POST (`http`) or catalog GET (`http_get`). -/
structure Env where
  config_file : FileState
  key_file : FileState
  fs : List (String × String)
  stdin_tty : Bool
  stdin : String
  http : HttpOutcome
  http_get : HttpOutcome

/-- The request main hands to a provider adapter. -/
structure PostCall where
  provider : String
  prompt : String
  model : String
  api_key : String
deriving Repr

/-- How the process ends: normal return, `sys.exit code`, an uncaught
exception, or the interactive-setup branch (not modelled further). -/
inductive MainStatus where
  | ok
  | exited (code : Nat)
  | crashed
  | setupRun
deriving Repr

/-- Observable result of `main`: final status, every line printed, the
number of network calls attempted, and the request sent to an adapter
(if any). -/
structure MainResult where
  status : MainStatus
  out : List String
  ncalls : Nat
  sent : Option PostCall
deriving Repr

/-- Help text printed by `parser.print_help()` (content abbreviated; only
the fact that usage help is printed matters). -/
def usage_help : String := "usage: ai_prompt.py [-h] [-m MODEL] [-p PROVIDER] [--setup] [--list-models] [-f FILE] [prompt]"

/-- Outcome of the prompt-resolution block of `main`. -/
inductive PromptRes where
  | got (t : String)
  | fileErr
  | noPrompt
deriving Repr

/-- The `elif not sys.stdin.isatty():` arm of prompt resolution. -/
def resolve_prompt_stdin (env : Env) : PromptRes :=
  if env.stdin_tty then .noPrompt else .got env.stdin

/-- The `elif args.file:` arm of prompt resolution. -/
def resolve_prompt_file (args : Args) (env : Env) : PromptRes :=
  match args.file with
  | some f =>
      if f = "" then resolve_prompt_stdin env
      else
        match (env.fs.find? (fun kv => kv.fst == f)).map (fun kv => kv.snd) with
        | some c => .got c
        | none => .fileErr
  | none => resolve_prompt_stdin env

/-- Embedding of `if args.prompt: ... elif args.file: ... elif not
sys.stdin.isatty(): ...`.  An empty-string argument is falsy in Python, so
it falls through exactly like an absent one. -/
def resolve_prompt (args : Args) (env : Env) : PromptRes :=
  match args.prompt with
  | some t => if t = "" then resolve_prompt_file args env else .got t
  | none => resolve_prompt_file args env

/-- Fallback of model resolution: `config[provider]["default_model"]`. -/
def resolve_model_cfg (config : Json) (p : String) : Option String :=
  match config.getField p with
  | some pc =>
      match pc.getField "default_model" with
      | some dm => some dm.pystr
      | none => none
  | none => none

/-- Embedding of `model = args.model or config[provider]["default_model"]`:
a truthy override wins and short-circuits; otherwise the per-provider
default is looked up (`none` models the propagated `KeyError`). -/
def resolve_model (margs : Option String) (config : Json) (p : String) :
    Option String :=
  match margs with
  | some m => if m = "" then resolve_model_cfg config p else some m
  | none => resolve_model_cfg config p

/-- The `if provider == "openai": ... elif ... else:` adapter dispatch of
`main` (the final `else` is the anthropic branch; `main` only reaches it
with a known provider). -/
def query_provider (p : String) (t m k : String) (http : HttpOutcome) :
    AdapterResult :=
  if p = "openai" then query_openai t m k http
  else if p = "openrouter" then query_openrouter t m k http
  else query_anthropic t m k http

/-- Tail of `main` from the adapter dispatch on: look up the key again
(`keys[provider]`), call the adapter, and print the response iff it is
truthy (`if response: print(response)`). -/
def main_dispatch (keys : Json) (http : HttpOutcome) (out0 : List String)
    (p t m : String) : MainResult :=
  match keys.getField p with
  | none => ⟨.crashed, out0, 0, none⟩
  | some k =>
      match query_provider p t m k.pystr http with
      | .returns v aout =>
          ⟨.ok,
           out0 ++ aout ++
             (match v with
              | some vj => if vj.falsy then [] else [vj.pystr]
              | none => []),
           1, some ⟨p, t, m, k.pystr⟩⟩
      | .raises aout => ⟨.crashed, out0 ++ aout, 1, some ⟨p, t, m, k.pystr⟩⟩

/-- Tail of `main` once the provider is resolved to a known identifier `p`:
key check (exit 1 on an empty key), the `--list-models` branch, prompt
resolution, model resolution, and dispatch. -/
def main_known (args : Args) (env : Env) (config : Json) (out0 : List String)
    (p : String) : MainResult :=
  match (load_keys env.key_file).getField p with
  | none => ⟨.crashed, out0, 0, none⟩
  | some kv =>
      if kv.falsy then
        ⟨.exited 1,
         out0 ++ ["No API key configured for " ++ p ++ ". Run with --setup to configure."],
         0, none⟩
      else if args.list_models then
        match config.getField p with
        | none => ⟨.crashed, out0, 0, none⟩
        | some pc =>
            match pc.getField "api_key" with
            | none => ⟨.crashed, out0, 0, none⟩
            | some ak =>
                match list_models p ak.pystr env.http_get with
                | .done lout n => ⟨.ok, out0 ++ lout, n, none⟩
                | .raised lout n => ⟨.crashed, out0 ++ lout, n, none⟩
      else
        match resolve_prompt args env with
        | .fileErr => ⟨.ok, out0 ++ ["Error reading file: exception"], 0, none⟩
        | .noPrompt => ⟨.ok, out0 ++ [usage_help], 0, none⟩
        | .got t =>
            if t = "" then ⟨.ok, out0 ++ [usage_help], 0, none⟩
            else
              match resolve_model args.model config p with
              | none => ⟨.crashed, out0, 0, none⟩
              | some m => main_dispatch (load_keys env.key_file) env.http out0 p t m

/-- Tail of `main` after the configuration loaded: the `--setup` branch,
provider resolution (override or `config["default_provider"]`), and the
known-provider check. -/
def main_parsed (args : Args) (env : Env) (config : Json) (out0 : List String) :
    MainResult :=
  if args.setup then ⟨.setupRun, out0, 0, none⟩
  else
    match (match args.provider with
           | some p => some (Json.str p)
           | none => config.getField "default_provider") with
    | none => ⟨.crashed, out0, 0, none⟩
    | some pj =>
        match pj with
        | .str p =>
            if p ∈ (["openai", "openrouter", "anthropic"] : List String) then
              main_known args env config out0 p
            else ⟨.ok, out0 ++ ["Unknown provider: " ++ p], 0, none⟩
        | other => ⟨.ok, out0 ++ ["Unknown provider: " ++ other.pystr], 0, none⟩

/-- Embedding of `main`: load the configuration (a parse failure
propagates), then continue in `main_parsed`. -/
def main_fn (args : Args) (env : Env) : MainResult :=
  match load_config env.config_file with
  | .error _ => ⟨.crashed, [], 0, none⟩
  | .ok (config, out0, _) => main_parsed args env config out0

/-- C6: if the key file is missing or its contents do not parse as JSON,
`load_keys` returns the default mapping sending each of the three known
providers to the empty string; if the file exists and parses, `load_keys`
returns the parsed mapping unchanged. -/
theorem C6_load_keys_behaviour :
    load_keys .absent =
      Json.obj [("openai", .str ""), ("openrouter", .str ""), ("anthropic", .str "")] ∧
    load_keys (.stored none) =
      Json.obj [("openai", .str ""), ("openrouter", .str ""), ("anthropic", .str "")] ∧
    ∀ j : Json, load_keys (.stored (some j)) = j :=
  ⟨rfl, rfl, fun _ => rfl⟩

/-- C7: when the configuration file does not exist, `load_config` writes a
file whose contents equal `DEFAULT_CONFIG` and returns that same structure
(printing the creation notice); when the file exists, it returns its parsed
contents and leaves the file unchanged; a parse failure propagates to the
caller. -/
theorem C7_load_config_behaviour :
    load_config .absent =
      .ok (DEFAULT_CONFIG,
           ["Created default configuration at " ++ CONFIG_PATH],
           .stored (some DEFAULT_CONFIG)) ∧
    (∀ j : Json, load_config (.stored (some j)) = .ok (j, [], .stored (some j))) ∧
    load_config (.stored none) = .error () :=
  ⟨rfl, fun _ => rfl, rfl⟩

/-- C1: the claim that no adapter ever raises past its boundary fails in the
code: on a transport exception from the POST itself, `query_openrouter` and
`query_anthropic` evaluate `hasattr(response, "text")` on an unbound local
inside the handler and an `UnboundLocalError` escapes; `query_openai`
(which initialises `response = None`) and the non-success-status paths of
all three behave as the claim states — openrouter and anthropic print the
raw body alongside the error, while openai's truthiness guard suppresses
the body line on a 4xx/5xx response. -/
theorem C1_transport_exception_escapes :
    query_openrouter "hi" "m" "k" .raised =
      .raises ["Error querying OpenRouter: exception"] ∧
    query_anthropic "hi" "m" "k" .raised =
      .raises ["Error querying Anthropic: exception"] ∧
    query_openai "hi" "m" "k" .raised =
      .returns none ["Error querying OpenAI: exception"] ∧
    query_openrouter "hi" "m" "k" (.response 500 "boom" none) =
      .returns none ["Error querying OpenRouter: HTTPError", "Response: boom"] ∧
    query_anthropic "hi" "m" "k" (.response 404 "nf" none) =
      .returns none ["Error querying Anthropic: HTTPError", "Response: nf"] ∧
    query_openai "hi" "m" "k" (.response 503 "oops" none) =
      .returns none ["Error querying OpenAI: HTTPError"] :=
  ⟨rfl, rfl, rfl, rfl, rfl, rfl⟩

/-- C3 counterexample: the key file may hold a valid JSON object (here the
empty object) whose `load_keys` image contains no entry for any of the
three known providers, refuting the claimed invariant. -/
theorem C3_counterexample :
    (load_keys (.stored (some (Json.obj [])))).getField "openai" = none ∧
    (load_keys (.stored (some (Json.obj [])))).getField "openrouter" = none ∧
    (load_keys (.stored (some (Json.obj [])))).getField "anthropic" = none :=
  ⟨rfl, rfl, rfl⟩

/-- C3 amended: the invariant holds for the mappings `load_keys` builds
itself — when the key file is absent or unparsable, every known provider is
mapped to the empty string — but a file that parses is returned unchanged,
so the mapping contains the three entries only when the stored object
already does. -/
theorem C3_amended_keys_invariant :
    (load_keys .absent).getField "openai" = some (.str "") ∧
    (load_keys .absent).getField "openrouter" = some (.str "") ∧
    (load_keys .absent).getField "anthropic" = some (.str "") ∧
    (load_keys (.stored none)).getField "openai" = some (.str "") ∧
    (load_keys (.stored none)).getField "openrouter" = some (.str "") ∧
    (load_keys (.stored none)).getField "anthropic" = some (.str "") ∧
    ∀ j : Json, load_keys (.stored (some j)) = j :=
  ⟨rfl, rfl, rfl, rfl, rfl, rfl, fun _ => rfl⟩

/-- C5: when the POST succeeds and the decoded body has the provider's
documented nested shape carrying generated text `X` (respectively `Y`),
each adapter returns exactly that text: `choices[0].message.content` for
`query_openai`/`query_openrouter`, `content[0].text` for
`query_anthropic`. -/
theorem C5_success_returns_text
    (p m k X Y text : String) (st : Nat) (j ja c0 msg a0 : Json)
    (cs as0 : List Json)
    (hst : st < 400)
    (hc : j.getField "choices" = some (.arr (c0 :: cs)))
    (hm : c0.getField "message" = some msg)
    (hx : msg.getField "content" = some (.str X))
    (ha : ja.getField "content" = some (.arr (a0 :: as0)))
    (ht : a0.getField "text" = some (.str Y)) :
    query_openai p m k (.response st text (some j)) = .returns (some (.str X)) [] ∧
    query_openrouter p m k (.response st text (some j)) = .returns (some (.str X)) [] ∧
    query_anthropic p m k (.response st text (some ja)) = .returns (some (.str Y)) [] := by
  have hne : ¬ errStatus st := by unfold errStatus; omega
  refine ⟨?_, ?_, ?_⟩ <;>
    simp [query_openai, query_openrouter, query_anthropic, extract_chat,
          extract_anthropic, hc, hm, hx, ha, ht, hne, Json.getIdx]

/-- Witness for C5 at a concrete successful response. -/
theorem C5_success_returns_text_witness :
    query_openai "p" "m" "k"
        (.response 200 ""
          (some (.obj [("choices",
            .arr [.obj [("message", .obj [("content", .str "X")])]])]))) =
      .returns (some (.str "X")) [] ∧
    query_openrouter "p" "m" "k"
        (.response 200 ""
          (some (.obj [("choices",
            .arr [.obj [("message", .obj [("content", .str "X")])]])]))) =
      .returns (some (.str "X")) [] ∧
    query_anthropic "p" "m" "k"
        (.response 200 ""
          (some (.obj [("content", .arr [.obj [("text", .str "Y")]])]))) =
      .returns (some (.str "Y")) [] :=
  C5_success_returns_text "p" "m" "k" "X" "Y" "" 200
    (.obj [("choices", .arr [.obj [("message", .obj [("content", .str "X")])]])])
    (.obj [("content", .arr [.obj [("text", .str "Y")]])])
    (.obj [("message", .obj [("content", .str "X")])])
    (.obj [("content", .str "X")])
    (.obj [("text", .str "Y")])
    [] []
    (by omega) rfl rfl rfl rfl rfl

/-- C2: whenever `main` runs without the setup flag, the configuration
loads, the resolved provider (override, or the configured default) is one
of the three known identifiers, and that provider's stored credential is
the empty string, the process exits with status exactly 1 after printing
the missing-key diagnostic, attempts no network call, and sends nothing to
an adapter. -/
theorem C2_empty_key_exits_one
    (args : Args) (env : Env) (config : Json) (out0 : List String)
    (fs' : FileState) (p : String)
    (hsetup : args.setup = false)
    (hcfg : load_config env.config_file = .ok (config, out0, fs'))
    (hprov : args.provider = some p ∨
             (args.provider = none ∧
              config.getField "default_provider" = some (.str p)))
    (hknown : p ∈ (["openai", "openrouter", "anthropic"] : List String))
    (hkey : (load_keys env.key_file).getField p = some (.str "")) :
    main_fn args env =
      ⟨.exited 1,
       out0 ++ ["No API key configured for " ++ p ++ ". Run with --setup to configure."],
       0, none⟩ := by
  unfold main_fn
  rw [hcfg]
  unfold main_parsed main_known
  rcases hprov with hp | ⟨hp, hd⟩
  · simp [hsetup, hp, hknown, hkey, Json.falsy]
  · simp [hsetup, hp, hd, hknown, hkey, Json.falsy]

/-- Witness for C2: provider override `openai` with an absent key file. -/
theorem C2_empty_key_exits_one_witness :
    main_fn ⟨none, none, some "openai", false, false, none⟩
        ⟨.stored (some DEFAULT_CONFIG), .absent, [], true, "", .raised, .raised⟩ =
      ⟨.exited 1,
       ["No API key configured for openai. Run with --setup to configure."],
       0, none⟩ :=
  C2_empty_key_exits_one
    ⟨none, none, some "openai", false, false, none⟩
    ⟨.stored (some DEFAULT_CONFIG), .absent, [], true, "", .raised, .raised⟩
    DEFAULT_CONFIG [] (.stored (some DEFAULT_CONFIG)) "openai"
    rfl rfl (Or.inl rfl) (by simp) rfl

/-- Helper: whatever the adapter outcome, the request `main` hands to the
adapter carries the resolved provider, prompt, model and key. -/
theorem main_dispatch_sent (keys : Json) (http : HttpOutcome)
    (out0 : List String) (p t m : String) (kj : Json)
    (hkey : keys.getField p = some kj) :
    (main_dispatch keys http out0 p t m).sent = some ⟨p, t, m, kj.pystr⟩ := by
  unfold main_dispatch
  rw [hkey]
  cases hq : query_provider p t m kj.pystr http <;> simp [hq]

/-- Helper: with the setup flag clear, a loaded configuration, and a known
provider override, `main` continues in `main_known`. -/
theorem main_fn_to_known (args : Args) (env : Env) (config : Json)
    (out0 : List String) (fs' : FileState) (p : String)
    (hsetup : args.setup = false)
    (hcfg : load_config env.config_file = .ok (config, out0, fs'))
    (hprov : args.provider = some p)
    (hknown : p ∈ (["openai", "openrouter", "anthropic"] : List String)) :
    main_fn args env = main_known args env config out0 p := by
  unfold main_fn
  rw [hcfg]
  unfold main_parsed
  simp [hsetup, hprov, hknown]

/-- Helper: with a truthy key, no list flag, a resolved non-empty prompt and
a truthy model override, `main_known` continues in `main_dispatch`. -/
theorem main_known_to_dispatch (args : Args) (env : Env) (config : Json)
    (out0 : List String) (p m t : String) (kj : Json)
    (hlist : args.list_models = false)
    (hkey : (load_keys env.key_file).getField p = some kj)
    (hkeyt : kj.falsy = false)
    (hm : args.model = some m)
    (hmne : m ≠ "")
    (hres : resolve_prompt args env = .got t)
    (htne : t ≠ "") :
    main_known args env config out0 p =
      main_dispatch (load_keys env.key_file) env.http out0 p t m := by
  unfold main_known
  rw [hkey]
  simp [hkeyt, hlist, hres, htne, resolve_model, hm, hmne]

/-- C4: prompt resolution selects exactly one source in priority order — a
non-empty literal argument always wins (for every file argument and every
standard-input state, only the literal is sent); otherwise a truthy file
argument is read and its contents sent; otherwise, when stdin is not a
terminal, stdin is sent. -/
theorem C4_prompt_priority
    (args : Args) (env : Env) (config : Json) (out0 : List String)
    (fs' : FileState) (p m : String) (kj : Json)
    (hsetup : args.setup = false)
    (hlist : args.list_models = false)
    (hcfg : load_config env.config_file = .ok (config, out0, fs'))
    (hprov : args.provider = some p)
    (hknown : p ∈ (["openai", "openrouter", "anthropic"] : List String))
    (hkey : (load_keys env.key_file).getField p = some kj)
    (hkeyt : kj.falsy = false)
    (hm : args.model = some m)
    (hmne : m ≠ "") :
    (∀ t, args.prompt = some t → t ≠ "" →
        (main_fn args env).sent = some ⟨p, t, m, kj.pystr⟩) ∧
    ((args.prompt = none ∨ args.prompt = some "") →
     ∀ f c, args.file = some f → f ≠ "" →
        (env.fs.find? (fun kv => kv.fst == f)).map (fun kv => kv.snd) = some c →
        c ≠ "" →
        (main_fn args env).sent = some ⟨p, c, m, kj.pystr⟩) ∧
    ((args.prompt = none ∨ args.prompt = some "") →
     (args.file = none ∨ args.file = some "") →
     env.stdin_tty = false → env.stdin ≠ "" →
        (main_fn args env).sent = some ⟨p, env.stdin, m, kj.pystr⟩) := by
  refine ⟨?_, ?_, ?_⟩
  · intro t hp htne
    have hres : resolve_prompt args env = .got t := by
      unfold resolve_prompt; rw [hp]; simp [htne]
    rw [main_fn_to_known args env config out0 fs' p hsetup hcfg hprov hknown,
        main_known_to_dispatch args env config out0 p m t kj hlist hkey hkeyt hm hmne hres htne]
    exact main_dispatch_sent _ _ _ _ _ _ _ hkey
  · intro hpf f c hf hfne hlk hcne
    have hres : resolve_prompt args env = .got c := by
      unfold resolve_prompt resolve_prompt_file
      rcases hpf with hp | hp <;> rw [hp] <;> simp [hf, hfne, hlk]
    rw [main_fn_to_known args env config out0 fs' p hsetup hcfg hprov hknown,
        main_known_to_dispatch args env config out0 p m c kj hlist hkey hkeyt hm hmne hres hcne]
    exact main_dispatch_sent _ _ _ _ _ _ _ hkey
  · intro hpf hff htty hsne
    have hres : resolve_prompt args env = .got env.stdin := by
      unfold resolve_prompt resolve_prompt_file resolve_prompt_stdin
      rcases hpf with hp | hp <;> rcases hff with hf | hf <;>
        rw [hp] <;> simp [hf, htty]
    rw [main_fn_to_known args env config out0 fs' p hsetup hcfg hprov hknown,
        main_known_to_dispatch args env config out0 p m env.stdin kj hlist hkey hkeyt hm hmne hres hsne]
    exact main_dispatch_sent _ _ _ _ _ _ _ hkey

/-- Witness for C4: with all three sources supplied, only the literal
argument is handed to the adapter. -/
theorem C4_prompt_priority_witness :
    (main_fn ⟨some "m", some "lit", some "openai", false, false, some "f.txt"⟩
        ⟨.stored (some DEFAULT_CONFIG),
         .stored (some (.obj [("openai", .str "key")])),
         [("f.txt", "filecontent")], false, "stdincontent",
         .raised, .raised⟩).sent =
      some ⟨"openai", "lit", "m", "key"⟩ :=
  (C4_prompt_priority
    ⟨some "m", some "lit", some "openai", false, false, some "f.txt"⟩
    ⟨.stored (some DEFAULT_CONFIG),
     .stored (some (.obj [("openai", .str "key")])),
     [("f.txt", "filecontent")], false, "stdincontent",
     .raised, .raised⟩
    DEFAULT_CONFIG [] (.stored (some DEFAULT_CONFIG)) "openai" "m" (.str "key")
    rfl rfl rfl rfl (by simp) rfl rfl rfl (by decide)).1
    "lit" rfl (by decide)

/-- C10: a supplied-but-empty positional prompt is falsy and treated as
absent — resolution falls through to the file argument and then to stdin;
and when the resolved prompt text is empty (or nothing resolves), `main`
prints the usage help, attempts no network call, and invokes no adapter. -/
theorem C10_empty_literal_falls_through
    (args : Args) (env : Env) (config : Json) (out0 : List String)
    (fs' : FileState) (p : String) (kj : Json)
    (hsetup : args.setup = false)
    (hlist : args.list_models = false)
    (hcfg : load_config env.config_file = .ok (config, out0, fs'))
    (hprov : args.provider = some p)
    (hknown : p ∈ (["openai", "openrouter", "anthropic"] : List String))
    (hkey : (load_keys env.key_file).getField p = some kj)
    (hkeyt : kj.falsy = false)
    (hprompt : args.prompt = some "") :
    (∀ m f c, args.model = some m → m ≠ "" → args.file = some f → f ≠ "" →
        (env.fs.find? (fun kv => kv.fst == f)).map (fun kv => kv.snd) = some c →
        c ≠ "" →
        (main_fn args env).sent = some ⟨p, c, m, kj.pystr⟩) ∧
    (∀ m, args.model = some m → m ≠ "" →
        (args.file = none ∨ args.file = some "") →
        env.stdin_tty = false → env.stdin ≠ "" →
        (main_fn args env).sent = some ⟨p, env.stdin, m, kj.pystr⟩) ∧
    (∀ f, args.file = some f → f ≠ "" →
        (env.fs.find? (fun kv => kv.fst == f)).map (fun kv => kv.snd) = some "" →
        main_fn args env = ⟨.ok, out0 ++ [usage_help], 0, none⟩) ∧
    ((args.file = none ∨ args.file = some "") →
     env.stdin_tty = false → env.stdin = "" →
        main_fn args env = ⟨.ok, out0 ++ [usage_help], 0, none⟩) ∧
    ((args.file = none ∨ args.file = some "") → env.stdin_tty = true →
        main_fn args env = ⟨.ok, out0 ++ [usage_help], 0, none⟩) := by
  have hmain := main_fn_to_known args env config out0 fs' p hsetup hcfg hprov hknown
  refine ⟨?_, ?_, ?_, ?_, ?_⟩
  · intro m f c hm hmne hf hfne hlk hcne
    have hres : resolve_prompt args env = .got c := by
      unfold resolve_prompt resolve_prompt_file
      rw [hprompt]
      simp [hf, hfne, hlk]
    rw [hmain,
        main_known_to_dispatch args env config out0 p m c kj hlist hkey hkeyt hm hmne hres hcne]
    exact main_dispatch_sent _ _ _ _ _ _ _ hkey
  · intro m hm hmne hff htty hsne
    have hres : resolve_prompt args env = .got env.stdin := by
      unfold resolve_prompt resolve_prompt_file resolve_prompt_stdin
      rw [hprompt]
      rcases hff with hf | hf <;> simp [hf, htty]
    rw [hmain,
        main_known_to_dispatch args env config out0 p m env.stdin kj hlist hkey hkeyt hm hmne hres hsne]
    exact main_dispatch_sent _ _ _ _ _ _ _ hkey
  · intro f hf hfne hlk
    have hres : resolve_prompt args env = .got "" := by
      unfold resolve_prompt resolve_prompt_file
      rw [hprompt]
      simp [hf, hfne, hlk]
    rw [hmain]
    unfold main_known
    rw [hkey]
    simp [hkeyt, hlist, hres]
  · intro hff htty hstdin
    have hres : resolve_prompt args env = .got "" := by
      unfold resolve_prompt resolve_prompt_file resolve_prompt_stdin
      rw [hprompt]
      rcases hff with hf | hf <;> simp [hf, htty, hstdin]
    rw [hmain]
    unfold main_known
    rw [hkey]
    simp [hkeyt, hlist, hres]
  · intro hff htty
    have hres : resolve_prompt args env = .noPrompt := by
      unfold resolve_prompt resolve_prompt_file resolve_prompt_stdin
      rw [hprompt]
      rcases hff with hf | hf <;> simp [hf, htty]
    rw [hmain]
    unfold main_known
    rw [hkey]
    simp [hkeyt, hlist, hres]

/-- Witness for C10: an empty literal prompt alongside a readable file
argument sends the file contents to the adapter. -/
theorem C10_empty_literal_falls_through_witness :
    (main_fn ⟨some "m", some "", some "openai", false, false, some "f.txt"⟩
        ⟨.stored (some DEFAULT_CONFIG),
         .stored (some (.obj [("openai", .str "key")])),
         [("f.txt", "filecontent")], true, "", .raised, .raised⟩).sent =
      some ⟨"openai", "filecontent", "m", "key"⟩ :=
  (C10_empty_literal_falls_through
    ⟨some "m", some "", some "openai", false, false, some "f.txt"⟩
    ⟨.stored (some DEFAULT_CONFIG),
     .stored (some (.obj [("openai", .str "key")])),
     [("f.txt", "filecontent")], true, "", .raised, .raised⟩
    DEFAULT_CONFIG [] (.stored (some DEFAULT_CONFIG)) "openai" (.str "key")
    rfl rfl rfl rfl (by simp) rfl rfl rfl).1
    "m" "f.txt" "filecontent" rfl (by decide) rfl (by decide) rfl (by decide)

/-- C9 counterexample: the dispatcher tests the adapter result for
truthiness, not presence.  Here the adapter returns the present result
`""` (a successful response whose generated text is empty), yet `main`
prints nothing (its output is empty). -/
theorem C9_counterexample :
    main_fn ⟨some "m", some "hi", some "openrouter", false, false, none⟩
        ⟨.stored (some DEFAULT_CONFIG),
         .stored (some (.obj [("openrouter", .str "key")])),
         [], true, "",
         .response 200 ""
           (some (.obj [("choices",
             .arr [.obj [("message", .obj [("content", .str "")])]])])),
         .raised⟩ =
      ⟨.ok, [], 1, some ⟨"openrouter", "hi", "m", "key"⟩⟩ ∧
    query_openrouter "hi" "m" "key"
        (.response 200 ""
          (some (.obj [("choices",
            .arr [.obj [("message", .obj [("content", .str "")])]])]))) =
      .returns (some (.str "")) [] :=
  ⟨rfl, rfl⟩

/-- C9 amended: when the dispatcher reaches an adapter and the adapter
returns, a present result is printed verbatim iff it is truthy (for
strings: non-empty); an absent result — or a present falsy one such as the
empty string — produces no further output. -/
theorem C9_amended_truthy_print
    (args : Args) (env : Env) (config : Json) (out0 : List String)
    (fs' : FileState) (p m t : String) (kj : Json)
    (v : Option Json) (aout : List String)
    (hsetup : args.setup = false)
    (hlist : args.list_models = false)
    (hcfg : load_config env.config_file = .ok (config, out0, fs'))
    (hprov : args.provider = some p)
    (hknown : p ∈ (["openai", "openrouter", "anthropic"] : List String))
    (hkey : (load_keys env.key_file).getField p = some kj)
    (hkeyt : kj.falsy = false)
    (hm : args.model = some m)
    (hmne : m ≠ "")
    (hprompt : args.prompt = some t)
    (htne : t ≠ "")
    (hq : query_provider p t m kj.pystr env.http = .returns v aout) :
    (∀ vj, v = some vj → vj.falsy = false →
        main_fn args env =
          ⟨.ok, out0 ++ aout ++ [vj.pystr], 1, some ⟨p, t, m, kj.pystr⟩⟩) ∧
    (v = none →
        main_fn args env =
          ⟨.ok, out0 ++ aout, 1, some ⟨p, t, m, kj.pystr⟩⟩) ∧
    (∀ vj, v = some vj → vj.falsy = true →
        main_fn args env =
          ⟨.ok, out0 ++ aout, 1, some ⟨p, t, m, kj.pystr⟩⟩) := by
  have hres : resolve_prompt args env = .got t := by
    unfold resolve_prompt; rw [hprompt]; simp [htne]
  have hmain :
      main_fn args env = main_dispatch (load_keys env.key_file) env.http out0 p t m := by
    rw [main_fn_to_known args env config out0 fs' p hsetup hcfg hprov hknown,
        main_known_to_dispatch args env config out0 p m t kj hlist hkey hkeyt hm hmne hres htne]
  refine ⟨?_, ?_, ?_⟩
  · intro vj hv hvt
    subst hv
    rw [hmain]
    unfold main_dispatch
    rw [hkey]
    simp [hq, hvt]
  · intro hv
    subst hv
    rw [hmain]
    unfold main_dispatch
    rw [hkey]
    simp [hq]
  · intro vj hv hvt
    subst hv
    rw [hmain]
    unfold main_dispatch
    rw [hkey]
    simp [hq, hvt]

/-- Witness for C9 (amended): a truthy generated text is printed verbatim
after the adapter returns it. -/
theorem C9_amended_truthy_print_witness :
    main_fn ⟨some "m", some "hi", some "openrouter", false, false, none⟩
        ⟨.stored (some DEFAULT_CONFIG),
         .stored (some (.obj [("openrouter", .str "key")])),
         [], true, "",
         .response 200 ""
           (some (.obj [("choices",
             .arr [.obj [("message", .obj [("content", .str "hello")])]])])),
         .raised⟩ =
      ⟨.ok, ["hello"], 1, some ⟨"openrouter", "hi", "m", "key"⟩⟩ :=
  (C9_amended_truthy_print
    ⟨some "m", some "hi", some "openrouter", false, false, none⟩
    ⟨.stored (some DEFAULT_CONFIG),
     .stored (some (.obj [("openrouter", .str "key")])),
     [], true, "",
     .response 200 ""
       (some (.obj [("choices",
         .arr [.obj [("message", .obj [("content", .str "hello")])]])])),
     .raised⟩
    DEFAULT_CONFIG [] (.stored (some DEFAULT_CONFIG)) "openrouter" "m" "hi"
    (.str "key") (some (.str "hello")) []
    rfl rfl rfl rfl (by simp) rfl rfl rfl (by decide) rfl (by decide) rfl).1
    (.str "hello") rfl rfl

/-- Statement-side view of a catalog: the identifiers of its entries, in
catalog order (`none` when some entry lacks a string `id`). -/
def catalog_ids : List Json → Option (List String)
  | [] => some []
  | m :: ms =>
      match m.getField "id" with
      | some (.str s) => (catalog_ids ms).map (fun r => s :: r)
      | _ => none

/-- Statement-side view of a catalog: the identifier and display name of
each entry, in catalog order. -/
def catalog_id_names : List Json → Option (List (String × String))
  | [] => some []
  | m :: ms =>
      match m.getField "id", m.getField "name" with
      | some (.str i), some (.str n) => (catalog_id_names ms).map (fun r => (i, n) :: r)
      | _, _ => none

/-- Helper: on a catalog whose entries carry string ids, the embedded
comprehension keeps exactly the ids containing "gpt" case-insensitively. -/
theorem openai_chat_models_eq :
    ∀ (entries : List Json) (ids : List String),
      catalog_ids entries = some ids →
      openai_chat_models entries = some (ids.filter has_gpt)
  | [], ids => by
      intro h
      simp only [catalog_ids, Option.some_inj] at h
      subst h
      rfl
  | m :: ms, ids => by
      intro h
      unfold catalog_ids at h
      cases hid : m.getField "id" <;> rw [hid] at h
      · simp at h
      case some v =>
        cases v <;> simp only at h <;> try simp at h
        case str s =>
          cases hrec : catalog_ids ms <;> rw [hrec] at h
          · simp at h
          case some ids0 =>
            simp only [Option.map_some, Option.some_inj] at h
            obtain ⟨a, h1, h2⟩ := h
            subst h1
            subst h2
            unfold openai_chat_models
            rw [hid, openai_chat_models_eq ms ids0 hrec]
            by_cases hg : has_gpt s = true <;>
              simp [List.filter_cons, hg]

/-- Helper: on a catalog whose entries carry string ids and names, the
embedded printing loop emits one formatted line per entry, in order, and
completes. -/
theorem openrouter_lines_eq :
    ∀ (entries : List Json) (pairs : List (String × String)),
      catalog_id_names entries = some pairs →
      openrouter_lines entries =
        (pairs.map (fun q => "  - " ++ q.fst ++ " (" ++ q.snd ++ ")"), true)
  | [], pairs => by
      intro h
      simp only [catalog_id_names, Option.some_inj] at h
      subst h
      rfl
  | m :: ms, pairs => by
      intro h
      unfold catalog_id_names at h
      cases hid : m.getField "id" <;> rw [hid] at h
      · simp at h
      case some v =>
        cases hnm : m.getField "name" <;> rw [hnm] at h
        · cases v <;> simp at h
        case some w =>
          cases v <;> try simp at h
          case str i =>
            cases w <;> try simp at h
            case str n =>
              cases hrec : catalog_id_names ms <;> rw [hrec] at h
              · simp at h
              case some pairs0 =>
                simp only [Option.map_some, Option.some_inj] at h
                obtain ⟨a, h1, h2⟩ := h
                subst h1
                subst h2
                unfold openrouter_lines
                rw [hid, hnm, openrouter_lines_eq ms pairs0 hrec]
                simp [Json.pystr]

/-- C8: for a well-formed catalog and a successful GET, `list_models` for
openai prints exactly the entries whose identifier contains "gpt"
case-insensitively, sorted in (code-point) lexicographic order, and
`list_models` for openrouter prints every entry's identifier alongside its
display name, in catalog order, unfiltered. -/
theorem C8_list_models_catalog
    (key text : String) (st : Nat) (entriesA entriesB : List Json)
    (ids : List String) (pairs : List (String × String))
    (hst : st < 400)
    (hids : catalog_ids entriesA = some ids)
    (hpairs : catalog_id_names entriesB = some pairs) :
    list_models "openai" key (.response st text (some (.obj [("data", .arr entriesA)]))) =
      .done ("\nAvailable OpenAI models:" ::
             (List.insertionSort PyLe (ids.filter has_gpt)).map (fun s => "  - " ++ s)) 1 ∧
    (List.insertionSort PyLe (ids.filter has_gpt)).Sorted PyLe ∧
    (List.insertionSort PyLe (ids.filter has_gpt)).Perm (ids.filter has_gpt) ∧
    list_models "openrouter" key (.response st text (some (.obj [("data", .arr entriesB)]))) =
      .done ("\nAvailable OpenRouter models:" ::
             pairs.map (fun q => "  - " ++ q.fst ++ " (" ++ q.snd ++ ")")) 1 := by
  have hne : ¬ errStatus st := by unfold errStatus; omega
  refine ⟨?_, List.sorted_insertionSort PyLe _, List.perm_insertionSort PyLe _, ?_⟩
  · unfold list_models
    simp [hne, Json.getField, openai_chat_models_eq entriesA ids hids]
  · unfold list_models
    simp [hne, Json.getField, openrouter_lines_eq entriesB pairs hpairs]

/-- Witness for C8 at a concrete catalog: `GPT-3.5` matches the filter
case-insensitively, `ada` is dropped, and the survivors are printed
sorted; the openrouter catalog is printed in order with names. -/
theorem C8_list_models_catalog_witness :
    list_models "openai" "key"
        (.response 200 ""
          (some (.obj [("data", .arr
            [.obj [("id", .str "gpt-4")],
             .obj [("id", .str "ada")],
             .obj [("id", .str "GPT-3.5")]])]))) =
      .done ("\nAvailable OpenAI models:" ::
             (List.insertionSort PyLe
               ((["gpt-4", "ada", "GPT-3.5"] : List String).filter has_gpt)).map
               (fun s => "  - " ++ s)) 1 ∧
    (List.insertionSort PyLe
      ((["gpt-4", "ada", "GPT-3.5"] : List String).filter has_gpt)).Sorted PyLe ∧
    (List.insertionSort PyLe
      ((["gpt-4", "ada", "GPT-3.5"] : List String).filter has_gpt)).Perm
      ((["gpt-4", "ada", "GPT-3.5"] : List String).filter has_gpt) ∧
    list_models "openrouter" "key"
        (.response 200 ""
          (some (.obj [("data", .arr
            [.obj [("id", .str "a/b"), ("name", .str "A B")]])]))) =
      .done ("\nAvailable OpenRouter models:" ::
             ([("a/b", "A B")] : List (String × String)).map
               (fun q => "  - " ++ q.fst ++ " (" ++ q.snd ++ ")")) 1 :=
  C8_list_models_catalog "key" "" 200
    [.obj [("id", .str "gpt-4")], .obj [("id", .str "ada")], .obj [("id", .str "GPT-3.5")]]
    [.obj [("id", .str "a/b"), ("name", .str "A B")]]
    ["gpt-4", "ada", "GPT-3.5"] [("a/b", "A B")]
    (by omega) rfl rfl
